import Mathlib

/-!
Shallow embedding of the `okresult` package (files `okresult/result.py`,
`okresult/error.py`, `okresult/safe.py`) and proofs about its claims.

Python values are modelled by the inductive `PyVal`; Python exception objects
are ordinary `PyVal` values built with the `plainExc` / `taggedExc`
constructors (in Python every exception object is a value).  A Python
computation that may raise is modelled as `Except PyVal α` whose `error`
component carries the raised exception object.  Python `==` on the data the
package manipulates is structural equality of `PyVal` (the claims never
compare two distinct exception objects, where Python would fall back to
identity).
-/

namespace OkResult

mutual

/-- Model of a Python runtime value, covering the shapes the `okresult`
package manipulates: JSON-ish data, exception objects (plain ones such as
`ValueError`, carrying class name and message, and `TaggedError` instances
carrying their tag, message, and the two storage slots
`_non_exception_cause` and `__cause__`), and the private `_NOT_SET`
sentinel object of `error.py`. -/
inductive PyVal : Type where
  | none : PyVal
  | bool (b : Bool) : PyVal
  | int (n : Int) : PyVal
  | str (s : String) : PyVal
  | list (xs : PyList) : PyVal
  | dict (entries : PyDict) : PyVal
  | plainExc (name message : String) : PyVal
  | taggedExc (tag message : String) (nec dunder : PyVal) : PyVal
  | notSet : PyVal

/-- A Python list of `PyVal`s. -/
inductive PyList : Type where
  | nil : PyList
  | cons (hd : PyVal) (tl : PyList) : PyList

/-- A Python string-keyed dict of `PyVal`s, in insertion order. -/
inductive PyDict : Type where
  | nil : PyDict
  | cons (key : String) (val : PyVal) (tl : PyDict) : PyDict

end

deriving instance DecidableEq for PyVal

deriving instance DecidableEq for Except

/-- `isinstance(v, BaseException)` on the model: exception objects are the
plain exceptions and the `TaggedError` instances. -/
def isException : PyVal → Bool
  | .plainExc _ _ => true
  | .taggedExc _ _ _ _ => true
  | _ => false

/-- Python `str()` restricted to what the package prints: `TaggedError.__str__`
returns `self._message`, `str` of a plain exception is its message, and plain
data prints the usual way. -/
def pyStr : PyVal → String
  | .none => "None"
  | .bool b => if b then "True" else "False"
  | .int n => toString n
  | .str s => s
  | .list _ => "[...]"
  | .dict _ => "\x7b...\x7d"
  | .plainExc _ m => m
  | .taggedExc _ m _ _ => m
  | .notSet => "<object object>"

/-- Python `repr()` on the model (used by the `f"...{value!r}"` default
messages of `unwrap` / `unwrap_err`). -/
def pyRepr : PyVal → String
  | .none => "None"
  | .bool b => if b then "True" else "False"
  | .int n => toString n
  | .str s => "'" ++ s ++ "'"
  | .list _ => "[...]"
  | .dict _ => "\x7b...\x7d"
  | .plainExc n m => n ++ "('" ++ m ++ "')"
  | .taggedExc t m _ _ => t ++ "('" ++ m ++ "')"
  | .notSet => "<object object>"

/-- Python `==` on the model: structural equality. -/
def pyEq (a b : PyVal) : Bool :=
  decide (a = b)

/-! ## `error.py`: `TaggedError`, `Panic`, `UnhandledException` -/

/-- `TaggedError.__init__` (error.py lines 37-52): given the constructor
`cause` argument, compute the stored exception object.  A throwable cause is
chain-linked through `__cause__` with the `_non_exception_cause` slot set to
the `_NOT_SET` sentinel; any other cause is stored in the
`_non_exception_cause` slot, with `None` replaced by the string `"None"`,
and `__cause__` set to `None`. -/
def TaggedError.mkExc (tag message : String) (cause : PyVal) : PyVal :=
  if isException cause then
    .taggedExc tag message .notSet cause
  else
    .taggedExc tag message
      (match cause with
        | .none => .str "None"
        | c => c)
      .none

/-- The `__cause__` attribute as observed through
`TaggedError.__getattribute__` (error.py lines 54-64): when the
`_non_exception_cause` slot is not the `_NOT_SET` sentinel it is returned,
otherwise the real `__cause__` slot is. -/
def causeAttr : PyVal → PyVal
  | .taggedExc _ _ nec dunder =>
      match nec with
      | .notSet => dunder
      | v => v
  | _ => .none

/-- The `tag` attribute of an error object. -/
def tagAttr : PyVal → String
  | .taggedExc t _ _ _ => t
  | .plainExc n _ => n
  | _ => ""

/-- The `message` attribute of a `TaggedError`. -/
def messageAttr : PyVal → String
  | .taggedExc _ m _ _ => m
  | .plainExc _ m => m
  | _ => ""

/-- Construction of a `Panic` exception object (error.py `Panic.__init__`,
which defers to `TaggedError.__init__` with tag `"Panic"`). -/
def Panic.mkExc (message : String) (cause : PyVal) : PyVal :=
  TaggedError.mkExc "Panic" message cause

/-- `is_panic` (error.py lines 197-210): `isinstance(value, Panic)`; in the
model the tag `"Panic"` is carried exactly by the `Panic` class. -/
def is_panic : PyVal → Bool
  | .taggedExc t _ _ _ => t == "Panic"
  | _ => false

/-- Construction of an `UnhandledException` object (error.py lines 148-171):
message `f"Unhandled exception: {cause}"`, then `TaggedError.__init__` with
the same cause. -/
def UnhandledException.mkExc (cause : PyVal) : PyVal :=
  TaggedError.mkExc "UnhandledException" ("Unhandled exception: " ++ pyStr cause) cause

/-- `panic` (error.py lines 213-227): raise `Panic(message, cause)`. -/
def panicRaise (message : String) (cause : PyVal) : Except PyVal α :=
  .error (Panic.mkExc message cause)

/-- `TaggedError.match` (error.py lines 93-119): look up `handlers[error.tag]`
via `dict.get`; raise `ValueError(f"No handler for error tag: {tag}")` when
absent, otherwise call the handler on the error.  Handler dicts are modelled
as association lists in insertion order; `hGet` below models `dict.get`
(later duplicate keys overwrite earlier ones, as in a Python dict). -/
def hGet (handlers : List (String × (PyVal → Except PyVal PyVal))) (key : String) :
    Option (PyVal → Except PyVal PyVal) :=
  match handlers with
  | [] => Option.none
  | (k, f) :: rest =>
      match hGet rest key with
      | Option.some g => Option.some g
      | Option.none => if k = key then Option.some f else Option.none

/-- See `hGet`; this is `TaggedError.match` itself. -/
def TaggedError.matchTag (error : PyVal)
    (handlers : List (String × (PyVal → Except PyVal PyVal))) : Except PyVal PyVal :=
  let tag := tagAttr error
  match hGet handlers tag with
  | Option.none => .error (.plainExc "ValueError" ("No handler for error tag: " ++ tag))
  | Option.some handler => handler error

/-- `TaggedError.match_partial` (error.py lines 121-145): same lookup, but
fall back to `otherwise(error)` instead of raising when no handler matches. -/
def TaggedError.match_partial (error : PyVal)
    (handlers : List (String × (PyVal → Except PyVal PyVal)))
    (otherwise : PyVal → Except PyVal PyVal) : Except PyVal PyVal :=
  let tag := tagAttr error
  match hGet handlers tag with
  | Option.none => otherwise error
  | Option.some handler => handler error

/-! ## `result.py`: the `Result` container -/

/-- The two-variant result container: `Ok(value)` / `Err(value)`. -/
inductive ResultV : Type where
  | ok (value : PyVal) : ResultV
  | err (value : PyVal) : ResultV
  deriving DecidableEq

/-- `Ok.is_ok` / `Err.is_ok`. -/
def ResultV.is_ok : ResultV → Bool
  | .ok _ => true
  | .err _ => false

/-- `Ok.is_err` / `Err.is_err`. -/
def ResultV.is_err : ResultV → Bool
  | .ok _ => false
  | .err _ => true

/-- `try_or_panic` (result.py lines 541-545): run the thunk; catch any
exception `e` it raises and raise `Panic(message, e)` instead.  The thunk's
outcome is the `Except` computation `comp`. -/
def try_or_panic (comp : Except PyVal α) (message : String) : Except PyVal α :=
  match comp with
  | .ok a => .ok a
  | .error e => .error (Panic.mkExc message e)

/-- A caller-supplied callback returning a plain value (it may raise). -/
abbrev Cb : Type := PyVal → Except PyVal PyVal

/-- A caller-supplied callback returning a `Result` (it may raise). -/
abbrev CbR : Type := PyVal → Except PyVal ResultV

/-- A `Matcher` for `Result.match`: the `ok` and `err` handler pair. -/
structure Matcher where
  onOk : Cb
  onErr : Cb

/-
Each combinator below is the method body from `result.py`, instrumented with
the list of arguments the caller-supplied callback is applied to (the spec's
"assert via call counter").  The first component is the method's outcome,
the second the callback's call trace.
-/

/-- `Ok.map` (result.py lines 207-208):
`try_or_panic(lambda: Ok(fn(self.value)), "Ok.map failed")`. -/
def Ok.map (v : PyVal) (fn : Cb) : Except PyVal ResultV × List PyVal :=
  (try_or_panic (Except.map ResultV.ok (fn v)) "Ok.map failed", [v])

/-- `Err.map` (result.py lines 282-283): `return self`; `fn` does not occur. -/
def Err.map (e : PyVal) (fn : Cb) : Except PyVal ResultV × List PyVal :=
  (.ok (.err e), [])

/-- `Ok.map_err` (result.py lines 210-211): `return self`; `fn` does not
occur. -/
def Ok.map_err (v : PyVal) (fn : Cb) : Except PyVal ResultV × List PyVal :=
  (.ok (.ok v), [])

/-- `Err.map_err` (result.py lines 285-286):
`try_or_panic(lambda: Err(fn(self.value)), "Err.map_err failed")`. -/
def Err.map_err (e : PyVal) (fn : Cb) : Except PyVal ResultV × List PyVal :=
  (try_or_panic (Except.map ResultV.err (fn e)) "Err.map_err failed", [e])

/-- `Ok.and_then` (result.py lines 230-231):
`try_or_panic(lambda: fn(self.value), "Ok.and_then failed")`. -/
def Ok.and_then (v : PyVal) (fn : CbR) : Except PyVal ResultV × List PyVal :=
  (try_or_panic (fn v) "Ok.and_then failed", [v])

/-- `Err.and_then` (result.py lines 303-304):
`try_or_panic(lambda: self, "Err.and_then failed")`; the lambda returns
`self` and `fn` does not occur in it. -/
def Err.and_then (e : PyVal) (fn : CbR) : Except PyVal ResultV × List PyVal :=
  (try_or_panic (.ok (.err e)) "Err.and_then failed", [])

/-- `Ok.tap` (result.py lines 222-224): `fn(self.value); return self` — there
is no `try_or_panic` around the callback. -/
def Ok.tap (v : PyVal) (fn : Cb) : Except PyVal ResultV × List PyVal :=
  (match fn v with
    | .ok _ => .ok (.ok v)
    | .error ex => .error ex, [v])

/-- `Err.tap` (result.py lines 297-298): `return self`. -/
def Err.tap (e : PyVal) (fn : Cb) : Except PyVal ResultV × List PyVal :=
  (.ok (.err e), [])

/-- `Ok.match` (result.py lines 240-244):
`try_or_panic(call_handler, "Ok.match failed")` where `call_handler` applies
`cases["ok"]` to the value. -/
def Ok.match_ (v : PyVal) (cases : Matcher) : Except PyVal PyVal × List PyVal :=
  (try_or_panic (cases.onOk v) "Ok.match failed", [v])

/-- `Err.match` (result.py lines 313-317):
`try_or_panic(call_handler, "Err.match failed")` where `call_handler` applies
`cases["err"]` to the value. -/
def Err.match_ (e : PyVal) (cases : Matcher) : Except PyVal PyVal × List PyVal :=
  (try_or_panic (cases.onErr e) "Err.match failed", [e])

/-- Python `message or default` used by the unwrap family: `None` and the
empty string are falsy, any other string is used as is. -/
def pyOrDefault (message : Option String) (default : String) : String :=
  match message with
  | Option.some m => if m = "" then default else m
  | Option.none => default

/-- `Ok.unwrap` (result.py lines 213-214): `return self.value`. -/
def Ok.unwrap (v : PyVal) (message : Option String) : Except PyVal PyVal :=
  .ok v

/-- `Err.unwrap` (result.py lines 288-289):
`panic(message or f"unwrap called on Err: {self.value!r}")`. -/
def Err.unwrap (e : PyVal) (message : Option String) : Except PyVal PyVal :=
  panicRaise (pyOrDefault message ("unwrap called on Err: " ++ pyRepr e)) .none

/-- `Ok.unwrap_err` (result.py lines 219-220):
`panic(message or f"unwrap_err called on Ok: {self.value!r}")`. -/
def Ok.unwrap_err (v : PyVal) (message : Option String) : Except PyVal PyVal :=
  panicRaise (pyOrDefault message ("unwrap_err called on Ok: " ++ pyRepr v)) .none

/-- `Err.unwrap_err` (result.py lines 294-295): `return self.value`. -/
def Err.unwrap_err (e : PyVal) (message : Option String) : Except PyVal PyVal :=
  .ok e

/-- `Ok.unwrap_or` / `Err.unwrap_or` (result.py lines 216-217, 291-292). -/
def ResultV.unwrap_or (r : ResultV) (fallback : PyVal) : PyVal :=
  match r with
  | .ok v => v
  | .err _ => fallback

/-! ## `result.py`: serialization -/

/-- `dict.get` on the model: the value of the last binding for `key`, if
any (later duplicate keys overwrite earlier ones in a Python dict). -/
def PyDict.get : PyDict → String → Option PyVal
  | .nil, _ => Option.none
  | .cons k v rest, key =>
      match PyDict.get rest key with
      | Option.some w => Option.some w
      | Option.none => if k = key then Option.some v else Option.none

/-- `key in d` on the model. -/
def PyDict.containsKey (d : PyDict) (key : String) : Bool :=
  (d.get key).isSome

/-- `Ok.serialize` (result.py lines 246-247):
`SerializedOk(status="ok", value=self.value)`. -/
def Ok.serialize (v : PyVal) : PyVal :=
  .dict (.cons "status" (.str "ok") (.cons "value" v .nil))

/-- `Err.serialize` (result.py lines 319-321): the wire value is
`str(self.value)` when the held value is an exception, otherwise the value
itself. -/
def Err.serialize (e : PyVal) : PyVal :=
  .dict (.cons "status" (.str "err")
    (.cons "value" (if isException e then .str (pyStr e) else e) .nil))

/-- `is_serialized_result` (result.py lines 146-153): a dict with both
`"status"` and `"value"` keys whose `"status"` is `"ok"` or `"err"`. -/
def is_serialized_result (d : PyVal) : Bool :=
  match d with
  | .dict entries =>
      if !(entries.containsKey "status") || !(entries.containsKey "value") then false
      else
        match entries.get "status" with
        | Option.some s => pyEq s (.str "ok") || pyEq s (.str "err")
        | Option.none => false
  | _ => false

/-- `Result.hydrate` (result.py lines 144-162): recognize the wire shape,
otherwise return `None`; on the shape, rebuild `Ok`/`Err` from the
`"value"` entry according to the `"status"` entry. -/
def Result.hydrate (data : PyVal) : Option ResultV :=
  if is_serialized_result data then
    match data with
    | .dict entries =>
        match entries.get "status", entries.get "value" with
        | Option.some s, Option.some v =>
            if pyEq s (.str "ok") then Option.some (.ok v) else Option.some (.err v)
        | _, _ => Option.none
    | _ => Option.none
  else Option.none

mutual

/-- A JSON-safe value: JSON-ish data all the way down — in particular not an
exception object and not the `_NOT_SET` sentinel. -/
def jsonSafe : PyVal → Bool
  | .none => true
  | .bool _ => true
  | .int _ => true
  | .str _ => true
  | .list xs => jsonSafeList xs
  | .dict es => jsonSafeDict es
  | .plainExc _ _ => false
  | .taggedExc _ _ _ _ => false
  | .notSet => false

/-- All elements JSON-safe. -/
def jsonSafeList : PyList → Bool
  | .nil => true
  | .cons x rest => jsonSafe x && jsonSafeList rest

/-- All values JSON-safe. -/
def jsonSafeDict : PyDict → Bool
  | .nil => true
  | .cons _ v rest => jsonSafe v && jsonSafeDict rest

end

/-! ## `safe.py`: the safe executors

The wrapped zero-argument operation is stateful across attempts (that is the
whole point of retrying), so it is embedded as a function of the invocation
index: `op i` is the outcome of the operation's `i`-th invocation (0-based).
-/

/-- The `thunk` argument of `safe` / `safe_async`: either a bare callable, or
a `SafeOptions` `{try_, catch}` pair. -/
inductive SafeThunk : Type where
  | callableThunk (op : Nat → Except PyVal PyVal) : SafeThunk
  | tryCatch (op : Nat → Except PyVal PyVal) (catchFn : PyVal → Except PyVal PyVal) : SafeThunk

/-- The inner `execute` of `safe` (safe.py lines 53-63) at invocation `i`:
a bare callable's fault is wrapped as `Err(UnhandledException(e))`; the
`{try_, catch}` form wraps the fault as `Err(catch(e))` (and a fault raised
by `catch` itself escapes). -/
def safeExecute (thunk : SafeThunk) (i : Nat) : Except PyVal ResultV :=
  match thunk with
  | .callableThunk op =>
      match op i with
      | .ok v => .ok (.ok v)
      | .error e => .ok (.err (UnhandledException.mkExc e))
  | .tryCatch op catchFn =>
      match op i with
      | .ok v => .ok (.ok v)
      | .error e =>
          match catchFn e with
          | .ok ev => .ok (.err ev)
          | .error e2 => .error e2

/-- `RetryConfig` (safe.py lines 12-13): the optional `times` entry. -/
structure RetryConfig where
  times : Option Nat

/-- `SafeConfig` (safe.py lines 22-23): the optional `retry` entry. -/
structure SafeConfig where
  retry : Option RetryConfig

/-- `(config or {}).get("retry", {})` followed by
`retry_config.get("times", 0) if retry_config else 0` (safe.py lines 65-66). -/
def resolveTimes (config : Option SafeConfig) : Nat :=
  match config with
  | Option.none => 0
  | Option.some c =>
      match c.retry with
      | Option.none => 0
      | Option.some rc => rc.times.getD 0

/-- The retry loop of `safe` (safe.py lines 70-73): up to `remaining` more
iterations; each first checks `result.is_ok()` and breaks, otherwise runs
`execute` again.  `count` is the number of `execute` invocations so far; an
exception escaping `execute` aborts the loop.  Returns the final outcome and
the total invocation count. -/
def safeLoop (thunk : SafeThunk) (remaining : Nat) (result : ResultV) (count : Nat) :
    Except PyVal ResultV × Nat :=
  match remaining with
  | 0 => (.ok result, count)
  | m + 1 =>
      if result.is_ok then (.ok result, count)
      else
        match safeExecute thunk count with
        | .ok r2 => safeLoop thunk m r2 (count + 1)
        | .error e => (.error e, count + 1)

/-- `safe` (safe.py lines 49-75): execute once, then run the retry loop. -/
def safe (thunk : SafeThunk) (config : Option SafeConfig) : Except PyVal ResultV × Nat :=
  match safeExecute thunk 0 with
  | .ok r => safeLoop thunk (resolveTimes config) r 1
  | .error e => (.error e, 1)

/-- The `backoff` literal of `RetryConfigAsync` (safe.py line 19). -/
inductive Backoff : Type where
  | constant : Backoff
  | linear : Backoff
  | exponential : Backoff
  deriving DecidableEq

/-- `RetryConfigAsync` (safe.py lines 16-19). -/
structure RetryConfigAsync where
  times : Option Nat
  delay_ms : Option Nat
  backoff : Option Backoff

/-- `SafeConfigAsync` (safe.py lines 26-27). -/
structure SafeConfigAsync where
  retry : Option RetryConfigAsync

/-- `times` resolution in `safe_async` (safe.py lines 123-124). -/
def resolveTimesAsync (config : Option SafeConfigAsync) : Nat :=
  match config with
  | Option.none => 0
  | Option.some c =>
      match c.retry with
      | Option.none => 0
      | Option.some rc => rc.times.getD 0

/-- `get_delay` (safe.py lines 108-121): the delay in seconds before retry
attempt `attempt` (0-based), per the configured backoff; `delay_ms` defaults
to 0 and `backoff` to `"constant"`.  Python's float arithmetic is modelled
by exact rational arithmetic. -/
def get_delay (config : Option SafeConfigAsync) (attempt : Nat) : ℚ :=
  match config with
  | Option.none => 0
  | Option.some cfg =>
      match cfg.retry with
      | Option.none => 0
      | Option.some rc =>
          let delay_ms := rc.delay_ms.getD 0
          match rc.backoff.getD .constant with
          | .constant => (delay_ms : ℚ) / 1000
          | .linear => ((delay_ms : ℚ) * (attempt + 1)) / 1000
          | .exponential => ((delay_ms : ℚ) * 2 ^ attempt) / 1000

/-- The retry loop of `safe_async` (safe.py lines 128-134).  `attempt` is the
loop variable of `for attempt in range(times)`; the third result component
is the trace of `asyncio.sleep` durations actually awaited, in order —
`await asyncio.sleep(delay)` happens only under `if delay > 0`. -/
def safeAsyncLoop (thunk : SafeThunk) (config : Option SafeConfigAsync)
    (remaining attempt : Nat) (result : ResultV) (count : Nat) (sleeps : List ℚ) :
    Except PyVal ResultV × Nat × List ℚ :=
  match remaining with
  | 0 => (.ok result, count, sleeps)
  | m + 1 =>
      if result.is_ok then (.ok result, count, sleeps)
      else
        let delay := get_delay config attempt
        let sleeps2 := if delay > 0 then sleeps ++ [delay] else sleeps
        match safeExecute thunk count with
        | .ok r2 => safeAsyncLoop thunk config m (attempt + 1) r2 (count + 1) sleeps2
        | .error e => (.error e, count + 1, sleeps2)

/-- `safe_async` (safe.py lines 92-136): execute once, then the backoff retry
loop.  The inner `execute` has the same fault handling as the synchronous
one, so `safeExecute` is reused. -/
def safe_async (thunk : SafeThunk) (config : Option SafeConfigAsync) :
    Except PyVal ResultV × Nat × List ℚ :=
  match safeExecute thunk 0 with
  | .ok r => safeAsyncLoop thunk config (resolveTimesAsync config) 0 r 1 []
  | .error e => (.error e, 1, [])

/-! ## Combinator chains

A Python method chain `r.map(f).and_then(g)...` evaluates left to right; an
exception raised by any link propagates outward and the remaining links never
run.  `runChain` is that evaluation in the `Except` embedding. -/

/-- One combinator link of a method chain (call traces dropped). -/
inductive Step : Type where
  | mapStep (fn : Cb) : Step
  | mapErrStep (fn : Cb) : Step
  | andThenStep (fn : CbR) : Step
  | tapStep (fn : Cb) : Step

/-- Dynamic dispatch of one combinator link on the active variant. -/
def applyStep (r : ResultV) (s : Step) : Except PyVal ResultV :=
  match s, r with
  | .mapStep fn, .ok v => (Ok.map v fn).1
  | .mapStep fn, .err e => (Err.map e fn).1
  | .mapErrStep fn, .ok v => (Ok.map_err v fn).1
  | .mapErrStep fn, .err e => (Err.map_err e fn).1
  | .andThenStep fn, .ok v => (Ok.and_then v fn).1
  | .andThenStep fn, .err e => (Err.and_then e fn).1
  | .tapStep fn, .ok v => (Ok.tap v fn).1
  | .tapStep fn, .err e => (Err.tap e fn).1

/-- Run a method chain: apply each link in turn; a raised exception skips
every remaining link. -/
def runChain (r : Except PyVal ResultV) (steps : List Step) : Except PyVal ResultV :=
  match steps with
  | [] => r
  | s :: rest =>
      match r with
      | .ok rv => runChain (applyStep rv s) rest
      | .error e => .error e

/-! ## Claim C1 -/

/-- C1: for every error value `e` and callbacks `f` (for `map`) and `g` (for
`and_then`), `Err(e).map(f)` and `Err(e).and_then(g)` return the original
`Err(e)` unchanged without raising, and the callback call trace is empty —
the callback is never invoked on the `Err` path. -/
theorem c1_err_short_circuits (e : PyVal) (f : Cb) (g : CbR) :
    Err.map e f = (.ok (.err e), []) ∧
    Err.and_then e g = (.ok (.err e), []) :=
  ⟨rfl, rfl⟩

/-! ## Claim C2 -/

/-- C2 counterexample: the claim includes `tap` among the combinators that
escalate a raising callback to `Panic`, but `Ok.tap` runs the callback with
no `try_or_panic` around it: the raw `ValueError` escapes `tap` unchanged,
and it is not a `Panic`. -/
theorem c2_tap_lets_raw_exception_escape :
    (Ok.tap (.int 0) (fun _ => .error (.plainExc "ValueError" "boom"))).1
      = .error (.plainExc "ValueError" "boom") ∧
    is_panic (.plainExc "ValueError" "boom") = false :=
  ⟨rfl, rfl⟩

/-- C2 (amended): if a caller-supplied callback raises `ex` when invoked,
then `map`, `map_err`, `and_then` and `match` raise
`Panic("<combinator> failed", ex)` — a Panic whose message describes the
combinator and whose `__cause__` is the original fault — instead of
returning an `Err`; the `tap` method, however, lets the raw exception
escape unchanged. -/
theorem c2_callback_faults_escalate (v e ex : PyVal) (hex : isException ex = true)
    (f : Cb) (hf : f v = .error ex)
    (fe : Cb) (hfe : fe e = .error ex)
    (g : CbR) (hg : g v = .error ex)
    (cases : Matcher) (hok : cases.onOk v = .error ex) (herr : cases.onErr e = .error ex) :
    (Ok.map v f).1 = .error (Panic.mkExc "Ok.map failed" ex) ∧
    (Err.map_err e fe).1 = .error (Panic.mkExc "Err.map_err failed" ex) ∧
    (Ok.and_then v g).1 = .error (Panic.mkExc "Ok.and_then failed" ex) ∧
    (Ok.match_ v cases).1 = .error (Panic.mkExc "Ok.match failed" ex) ∧
    (Err.match_ e cases).1 = .error (Panic.mkExc "Err.match failed" ex) ∧
    (Ok.tap v f).1 = .error ex ∧
    (∀ msg, is_panic (Panic.mkExc msg ex) = true ∧
      messageAttr (Panic.mkExc msg ex) = msg ∧
      causeAttr (Panic.mkExc msg ex) = ex) := by
  refine ⟨?_, ?_, ?_, ?_, ?_, ?_, ?_⟩
  · simp [Ok.map, hf, try_or_panic, Except.map]
  · simp [Err.map_err, hfe, try_or_panic, Except.map]
  · simp [Ok.and_then, hg, try_or_panic]
  · simp [Ok.match_, hok, try_or_panic]
  · simp [Err.match_, herr, try_or_panic]
  · simp [Ok.tap, hf]
  · intro msg
    refine ⟨?_, ?_, ?_⟩
    · simp [Panic.mkExc, TaggedError.mkExc, hex, is_panic]
    · simp [Panic.mkExc, TaggedError.mkExc, hex, messageAttr]
    · simp [Panic.mkExc, TaggedError.mkExc, hex, causeAttr]

/-- Witness for `c2_callback_faults_escalate` at `v = 0`, `e = 1` and a
raising `ValueError` callback. -/
theorem c2_callback_faults_escalate_witness :
    (Ok.tap (.int 0) (fun _ => .error (.plainExc "ValueError" "boom"))).1
      = .error (.plainExc "ValueError" "boom") :=
  (c2_callback_faults_escalate (.int 0) (.int 1) (.plainExc "ValueError" "boom")
    rfl (fun _ => .error (.plainExc "ValueError" "boom")) rfl
    (fun _ => .error (.plainExc "ValueError" "boom")) rfl
    (fun _ => .error (.plainExc "ValueError" "boom")) rfl
    ⟨fun _ => .error (.plainExc "ValueError" "boom"),
     fun _ => .error (.plainExc "ValueError" "boom")⟩ rfl rfl).2.2.2.2.2.1

/-! ## Claim C3 -/

/-- C3 counterexample: a `Panic` raised inside a caller-supplied callback
does NOT surface unchanged from the combinator chain: `try_or_panic`
catches it (a `Panic` is an `Exception`) and raises a fresh
`Panic("Ok.map failed", cause=<the original Panic>)`, so the surfaced
condition differs from the raised one. -/
theorem c3_panic_is_rewrapped_at_the_invoking_combinator :
    runChain (.ok (.ok (.int 0)))
        [Step.mapStep (fun _ => panicRaise "boom" .none)]
      = .error (Panic.mkExc "Ok.map failed" (Panic.mkExc "boom" .none)) ∧
    Panic.mkExc "Ok.map failed" (Panic.mkExc "boom" .none) ≠ Panic.mkExc "boom" .none :=
  ⟨rfl, by decide⟩

/-- C3 (amended): a `Panic` raised inside a caller-supplied callback is
caught by the invoking combinator and re-raised as a fresh `Panic` that
carries the original one as its `__cause__`; that escalation then propagates
unobstructed through all remaining links of the chain — no later combinator
traps or rewraps it — and it is never converted back into an `Err` result. -/
theorem c3_panic_propagates_and_is_never_an_err (p : PyVal) (hp : is_panic p = true)
    (steps rest : List Step) (v : PyVal) (f : Cb) (hf : f v = .error p) :
    runChain (.error p) steps = .error p ∧
    (∀ r, runChain (.error p) steps ≠ .ok r) ∧
    runChain (.ok (.ok v)) (Step.mapStep f :: rest)
      = .error (Panic.mkExc "Ok.map failed" p) ∧
    is_panic (Panic.mkExc "Ok.map failed" p) = true ∧
    causeAttr (Panic.mkExc "Ok.map failed" p) = p := by
  have hex : isException p = true := by
    cases p <;> simp_all [is_panic, isException]
  have hprop : ∀ ss : List Step, ∀ q : PyVal, runChain (.error q) ss = .error q := by
    intro ss q
    cases ss <;> rfl
  refine ⟨hprop steps p, ?_, ?_, ?_, ?_⟩
  · intro r hr
    rw [hprop steps p] at hr
    exact Except.noConfusion hr
  · have : applyStep (.ok v) (Step.mapStep f)
        = .error (Panic.mkExc "Ok.map failed" p) := by
      simp [applyStep, Ok.map, hf, try_or_panic, Except.map]
    simp only [runChain, this, hprop]
  · simp [Panic.mkExc, TaggedError.mkExc, hex, is_panic]
  · simp [Panic.mkExc, TaggedError.mkExc, hex, causeAttr]

/-- Witness for `c3_panic_propagates_and_is_never_an_err` on a two-link
chain whose first callback raises `Panic("boom")`. -/
theorem c3_panic_propagates_witness :
    runChain (.ok (.ok (.int 0)))
        [Step.mapStep (fun _ => panicRaise "boom" (.int 3)),
         Step.andThenStep (fun x => .ok (.ok x))]
      = .error (Panic.mkExc "Ok.map failed" (Panic.mkExc "boom" (.int 3))) :=
  (c3_panic_propagates_and_is_never_an_err (Panic.mkExc "boom" (.int 3)) rfl
    [] [Step.andThenStep (fun x => .ok (.ok x))] (.int 0)
    (fun _ => panicRaise "boom" (.int 3)) rfl).2.2.1

/-! ## Claim C4 -/

/-- The retry loop returns immediately on an `Ok` result. -/
lemma safeLoop_ok (thunk : SafeThunk) (m count : Nat) (v : PyVal) :
    safeLoop thunk m (.ok v) count = (.ok (.ok v), count) := by
  cases m <;> simp [safeLoop, ResultV.is_ok]

/-- The retry loop performs at most `m` further `execute` invocations. -/
lemma safeLoop_count_le (thunk : SafeThunk) (m : Nat) (r : ResultV) (count : Nat) :
    (safeLoop thunk m r count).2 ≤ count + m := by
  induction m generalizing r count with
  | zero => simp [safeLoop]
  | succ m ih =>
      simp only [safeLoop]
      split
      · simp
      · cases h : safeExecute thunk count with
        | ok r2 =>
            calc (safeLoop thunk m r2 (count + 1)).2 ≤ count + 1 + m := ih r2 (count + 1)
              _ = count + (m + 1) := by omega
        | error e => simp

/-- If `execute` produces `Err` results on the next `j` invocations and an
`Ok` on the one after, and the loop still has more than `j` iterations left,
it stops at that first `Ok` after exactly `j + 1` further invocations. -/
lemma safeLoop_succeeds (thunk : SafeThunk) (j : Nat) :
    ∀ m count : Nat, ∀ r : ResultV, ∀ v : PyVal,
      r.is_ok = false → j < m →
      (∀ i, i < j → ∃ w, safeExecute thunk (count + i) = .ok (.err w)) →
      safeExecute thunk (count + j) = .ok (.ok v) →
      safeLoop thunk m r count = (.ok (.ok v), count + j + 1) := by
  induction j with
  | zero =>
      intro m count r v hr hj _ hsucc
      obtain ⟨m', rfl⟩ : ∃ m', m = m' + 1 := ⟨m - 1, by omega⟩
      simp only [Nat.add_zero] at hsucc
      simp [safeLoop, hr, hsucc, safeLoop_ok]
  | succ j ih =>
      intro m count r v hr hj hfail hsucc
      obtain ⟨m', rfl⟩ : ∃ m', m = m' + 1 := ⟨m - 1, by omega⟩
      obtain ⟨w, hw⟩ := hfail 0 (Nat.succ_pos j)
      rw [Nat.add_zero] at hw
      have hrec := ih m' (count + 1) (.err w) v rfl (by omega)
        (fun i hi => by
          obtain ⟨w', hw'⟩ := hfail (i + 1) (by omega)
          exact ⟨w', by rw [show count + 1 + i = count + (i + 1) by omega]; exact hw'⟩)
        (by rw [show count + 1 + j = count + (j + 1) by omega]; exact hsucc)
      simp only [safeLoop, hr, Bool.false_eq_true, if_false, hw]
      rw [hrec]
      congr 1
      omega

/-- If every `execute` invocation the loop can reach yields the same `Err`
result, the loop (entered with that `Err`) ends with it. -/
lemma safeLoop_const_err (thunk : SafeThunk) (c : PyVal)
    (hall : ∀ i, safeExecute thunk i = .ok (.err c)) (m : Nat) :
    ∀ count, (safeLoop thunk m (.err c) count).1 = .ok (.err c) := by
  induction m with
  | zero => intro count; simp [safeLoop]
  | succ m ih => intro count; simp [safeLoop, ResultV.is_ok, hall count, ih]

/-- C4: with retry config `{times: n}`, `safe` invokes the wrapped operation
at most `n + 1` times; if the operation fails on its first `k` invocations
and succeeds on invocation `k` (0-based) with `k ≤ n`, the final result is
that `Ok` after exactly `k + 1` invocations — in both the bare-callable form
and the `{try_, catch}` form (with a non-raising `catch`); each fault of a
bare callable is wrapped as `Err(UnhandledException(fault))`, and each fault
of a `{try_, catch}` pair as `Err(catch(fault))`. -/
theorem c4_safe_retry_policy (n : Nat) (cfg : Option SafeConfig)
    (hcfg : resolveTimes cfg = n) :
    (∀ thunk, (safe thunk cfg).2 ≤ n + 1) ∧
    (∀ op : Nat → Except PyVal PyVal, ∀ k : Nat, ∀ v : PyVal,
      k ≤ n →
      (∀ i, i < k → ∃ ex, op i = .error ex) →
      op k = .ok v →
      safe (.callableThunk op) cfg = (.ok (.ok v), k + 1) ∧
      (∀ catchFn : Cb, (∀ ex, ∃ ev, catchFn ex = .ok ev) →
        safe (.tryCatch op catchFn) cfg = (.ok (.ok v), k + 1))) ∧
    (∀ op : Nat → Except PyVal PyVal, ∀ i ex, op i = .error ex →
      safeExecute (.callableThunk op) i = .ok (.err (UnhandledException.mkExc ex))) ∧
    (∀ op : Nat → Except PyVal PyVal, ∀ catchFn : Cb, ∀ i ex ev,
      op i = .error ex → catchFn ex = .ok ev →
      safeExecute (.tryCatch op catchFn) i = .ok (.err ev)) := by
  subst hcfg
  refine ⟨?_, ?_, ?_, ?_⟩
  · intro thunk
    unfold safe
    cases h : safeExecute thunk 0 with
    | ok r =>
        have := safeLoop_count_le thunk (resolveTimes cfg) r 1
        simpa using by omega
    | error e => simp
  · intro op k v hk hfail hsucc
    constructor
    · show safe (.callableThunk op) cfg = (.ok (.ok v), k + 1)
      unfold safe
      rcases Nat.eq_zero_or_pos k with hk0 | hkpos
      · subst hk0
        simp [safeExecute, hsucc, safeLoop_ok]
      · obtain ⟨ex0, hex0⟩ := hfail 0 hkpos
        have h0 : safeExecute (.callableThunk op) 0
            = .ok (.err (UnhandledException.mkExc ex0)) := by
          simp [safeExecute, hex0]
        simp only [h0]
        have := safeLoop_succeeds (.callableThunk op) (k - 1) (resolveTimes cfg) 1
          (.err (UnhandledException.mkExc ex0)) v rfl (by omega)
          (fun i hi => by
            obtain ⟨ex, hex⟩ := hfail (1 + i) (by omega)
            exact ⟨UnhandledException.mkExc ex, by simp [safeExecute, hex]⟩)
          (by rw [show 1 + (k - 1) = k by omega]; simp [safeExecute, hsucc])
        rw [this]
        congr 1
        omega
    · intro catchFn hcatch
      unfold safe
      rcases Nat.eq_zero_or_pos k with hk0 | hkpos
      · subst hk0
        simp [safeExecute, hsucc, safeLoop_ok]
      · obtain ⟨ex0, hex0⟩ := hfail 0 hkpos
        obtain ⟨ev0, hev0⟩ := hcatch ex0
        have h0 : safeExecute (.tryCatch op catchFn) 0 = .ok (.err ev0) := by
          simp [safeExecute, hex0, hev0]
        simp only [h0]
        have := safeLoop_succeeds (.tryCatch op catchFn) (k - 1) (resolveTimes cfg) 1
          (.err ev0) v rfl (by omega)
          (fun i hi => by
            obtain ⟨ex, hex⟩ := hfail (1 + i) (by omega)
            obtain ⟨ev, hev⟩ := hcatch ex
            exact ⟨ev, by simp [safeExecute, hex, hev]⟩)
          (by rw [show 1 + (k - 1) = k by omega]; simp [safeExecute, hsucc])
        rw [this]
        congr 1
        omega
  · intro op i ex hex
    simp [safeExecute, hex]
  · intro op catchFn i ex ev hex hev
    simp [safeExecute, hex, hev]

/-- Witness for `c4_safe_retry_policy`: `{retry: {times: 2}}` with an
operation that fails twice then succeeds is called exactly 3 times and ends
`Ok`. -/
theorem c4_safe_retry_policy_witness :
    safe (.callableThunk (fun i =>
        if i < 2 then .error (.plainExc "ValueError" "boom") else .ok (.int 9)))
      (Option.some ⟨Option.some ⟨Option.some 2⟩⟩)
      = (.ok (.ok (.int 9)), 3) :=
  ((c4_safe_retry_policy 2 (Option.some ⟨Option.some ⟨Option.some 2⟩⟩) rfl).2.1
    (fun i => if i < 2 then .error (.plainExc "ValueError" "boom") else .ok (.int 9))
    2 (.int 9) (by omega)
    (fun i hi => ⟨.plainExc "ValueError" "boom", by
      simp only [if_pos hi]⟩)
    (by simp)).1

/-! ## Claim C5 -/

/-- If every `execute` invocation yields the same `Err`, the async retry
loop runs all its iterations, and the `asyncio.sleep` trace is exactly the
sequence of positive computed delays, one per retry attempt, in order —
a computed delay of 0 contributes no suspension. -/
lemma safeAsyncLoop_const_err (thunk : SafeThunk) (config : Option SafeConfigAsync)
    (c : PyVal) (hall : ∀ i, safeExecute thunk i = .ok (.err c)) (m : Nat) :
    ∀ a count : Nat, ∀ sleeps : List ℚ,
      safeAsyncLoop thunk config m a (.err c) count sleeps
        = (.ok (.err c), count + m,
           sleeps ++ ((List.range m).map (fun j => get_delay config (a + j))).filter
             (fun d => decide (0 < d))) := by
  induction m with
  | zero => intro a count sleeps; simp [safeAsyncLoop]
  | succ m ih =>
      intro a count sleeps
      have hmap : (List.range m).map ((fun j => get_delay config (a + j)) ∘ Nat.succ)
          = (List.range m).map (fun j => get_delay config (a + 1 + j)) := by
        apply List.map_congr_left
        intro j _
        simp only [Function.comp]
        congr 1
        omega
      simp only [safeAsyncLoop, ResultV.is_ok, Bool.false_eq_true, if_false, hall count,
        ih (a + 1) (count + 1)]
      simp only [Prod.mk.injEq, true_and, eq_self_iff_true]
      refine ⟨by omega, ?_⟩
      simp only [List.range_succ_eq_map, List.map_cons, List.map_map, hmap,
        List.filter_cons, Nat.add_zero]
      by_cases hd : (0 : ℚ) < get_delay config a
      · simp [hd, List.append_assoc]
      · simp [hd]

/-- C5: for retry attempt index `i` (0-based from the first retry),
`get_delay` computes `delay_ms / 1000` seconds for constant backoff,
`delay_ms * (i + 1) / 1000` for linear, and `delay_ms * 2 ^ i / 1000` for
exponential (the division by 1000 is the milliseconds-to-seconds
conversion); and on a run whose attempts all fail, the sequence of
suspensions actually awaited is exactly the sequence of positive computed
delays in attempt order — a computed delay of 0 causes no suspension. -/
theorem c5_async_backoff (t dms i n : Nat) (config : Option SafeConfigAsync)
    (thunk : SafeThunk) (c : PyVal)
    (hn : resolveTimesAsync config = n)
    (hall : ∀ j, safeExecute thunk j = .ok (.err c)) :
    get_delay (.some ⟨.some ⟨.some t, .some dms, .some .constant⟩⟩) i
      = (dms : ℚ) / 1000 ∧
    get_delay (.some ⟨.some ⟨.some t, .some dms, .some .linear⟩⟩) i
      = ((dms : ℚ) * (i + 1)) / 1000 ∧
    get_delay (.some ⟨.some ⟨.some t, .some dms, .some .exponential⟩⟩) i
      = ((dms : ℚ) * 2 ^ i) / 1000 ∧
    safe_async thunk config
      = (.ok (.err c), n + 1,
         ((List.range n).map (fun j => get_delay config j)).filter
           (fun d => decide (0 < d))) := by
  refine ⟨rfl, rfl, rfl, ?_⟩
  subst hn
  simp only [safe_async, hall 0, safeAsyncLoop_const_err thunk config c hall]
  simp only [Prod.mk.injEq, List.nil_append, true_and, eq_self_iff_true]
  refine ⟨by omega, ?_⟩
  simp

/-- Witness for `c5_async_backoff`: 2 retries at 100 ms exponential backoff
on an always-failing operation sleep 0.1 s then 0.2 s. -/
theorem c5_async_backoff_witness :
    safe_async (.callableThunk (fun _ => .error (.plainExc "ValueError" "x")))
        (.some ⟨.some ⟨.some 2, .some 100, .some .exponential⟩⟩)
      = (.ok (.err (UnhandledException.mkExc (.plainExc "ValueError" "x"))), 3,
         [(100 : ℚ) / 1000, (200 : ℚ) / 1000]) := by
  have h := (c5_async_backoff 2 100 0 2
      (.some ⟨.some ⟨.some 2, .some 100, .some .exponential⟩⟩)
      (.callableThunk (fun _ => .error (.plainExc "ValueError" "x")))
      (UnhandledException.mkExc (.plainExc "ValueError" "x")) rfl (fun _ => rfl)).2.2.2
  rw [h]
  norm_num [List.range_succ, get_delay, List.filter_cons, List.filter_nil]

/-! ## Claim C6 -/

/-- C6 counterexample: an absent cause is not stored as a distinguishable
NoCause state: `TaggedError.__init__` stores the string `"None"` in the
`_non_exception_cause` slot, producing a stored state identical to that of
an explicitly passed `"None"` value cause — so no introspection can tell
the two apart. -/
theorem c6_nocause_conflates_with_none_value :
    TaggedError.mkExc "SomeError" "m" PyVal.none
      = TaggedError.mkExc "SomeError" "m" (.str "None") ∧
    causeAttr (TaggedError.mkExc "SomeError" "m" PyVal.none) = .str "None" :=
  ⟨rfl, rfl⟩

/-- C6 (amended): a throwable cause is stored in exception mode
(`_non_exception_cause` is the `_NOT_SET` sentinel, `__cause__` chain-links
the exception); any other non-`None`, non-sentinel value is stored in value
mode (`_non_exception_cause` holds it) and read back through `__cause__`;
but an absent cause is stored as the string `"None"` in value mode — the
very same stored state as an explicit `"None"` value cause — so the
no-cause state is not introspectably distinct from that value cause. -/
theorem c6_cause_storage_modes (tag m : String) (cause : PyVal) :
    (isException cause = true →
      TaggedError.mkExc tag m cause = .taggedExc tag m .notSet cause ∧
      causeAttr (TaggedError.mkExc tag m cause) = cause) ∧
    (isException cause = false → cause ≠ .none → cause ≠ .notSet →
      TaggedError.mkExc tag m cause = .taggedExc tag m cause .none ∧
      causeAttr (TaggedError.mkExc tag m cause) = cause) ∧
    (TaggedError.mkExc tag m .none = .taggedExc tag m (.str "None") .none ∧
      TaggedError.mkExc tag m .none = TaggedError.mkExc tag m (.str "None")) := by
  refine ⟨?_, ?_, rfl, rfl⟩
  · intro hex
    constructor
    · simp [TaggedError.mkExc, hex]
    · simp [TaggedError.mkExc, hex, causeAttr]
  · intro hex hnone hns
    have h1 : TaggedError.mkExc tag m cause = .taggedExc tag m cause .none := by
      cases cause <;> simp_all [TaggedError.mkExc, isException]
    refine ⟨h1, ?_⟩
    rw [h1]
    cases cause <;> simp_all [causeAttr]

/-- Witness for `c6_cause_storage_modes`: an exception cause is chain-linked
and read back through `__cause__`. -/
theorem c6_cause_storage_modes_witness :
    TaggedError.mkExc "E" "m" (.plainExc "ValueError" "inner")
      = .taggedExc "E" "m" .notSet (.plainExc "ValueError" "inner") ∧
    causeAttr (TaggedError.mkExc "E" "m" (.plainExc "ValueError" "inner"))
      = .plainExc "ValueError" "inner" :=
  (c6_cause_storage_modes "E" "m" (.plainExc "ValueError" "inner")).1 rfl

/-! ## Claim C7 -/

/-- C7: `TaggedError.match` returns `handlers[error.tag](error)` when an
entry for the tag exists, and raises
`ValueError("No handler for error tag: <tag>")` when none does;
`TaggedError.match_partial` in the no-entry case instead returns
`otherwise(error)` without raising. -/
theorem c7_tagged_error_dispatch (err : PyVal)
    (handlers : List (String × (PyVal → Except PyVal PyVal)))
    (otherwise : PyVal → Except PyVal PyVal) :
    (∀ h, hGet handlers (tagAttr err) = Option.some h →
      TaggedError.matchTag err handlers = h err) ∧
    (hGet handlers (tagAttr err) = Option.none →
      TaggedError.matchTag err handlers
        = .error (.plainExc "ValueError" ("No handler for error tag: " ++ tagAttr err))) ∧
    (hGet handlers (tagAttr err) = Option.none →
      TaggedError.match_partial err handlers otherwise = otherwise err) ∧
    (∀ w, hGet handlers (tagAttr err) = Option.none → otherwise err = .ok w →
      TaggedError.match_partial err handlers otherwise = .ok w) := by
  refine ⟨?_, ?_, ?_, ?_⟩
  · intro h hh
    simp [TaggedError.matchTag, hh]
  · intro hh
    simp [TaggedError.matchTag, hh]
  · intro hh
    simp [TaggedError.match_partial, hh]
  · intro w hh hw
    simp [TaggedError.match_partial, hh, hw]

/-- Witness for `c7_tagged_error_dispatch`: an error with tag `"E"` and an
empty handler dict raises the `ValueError`, while `match_partial` returns
the fallback's value. -/
theorem c7_tagged_error_dispatch_witness :
    TaggedError.matchTag (.taggedExc "E" "m" (.str "None") .none) []
      = .error (.plainExc "ValueError" "No handler for error tag: E") ∧
    TaggedError.match_partial (.taggedExc "E" "m" (.str "None") .none) []
        (fun _ => .ok (.str "fallback"))
      = .ok (.str "fallback") :=
  ⟨(c7_tagged_error_dispatch (.taggedExc "E" "m" (.str "None") .none) []
      (fun _ => .ok (.str "fallback"))).2.1 rfl,
   (c7_tagged_error_dispatch (.taggedExc "E" "m" (.str "None") .none) []
      (fun _ => .ok (.str "fallback"))).2.2.1 rfl⟩

/-! ## Claim C8 -/

/-- A JSON-safe value is not an exception object. -/
lemma jsonSafe_not_exception (v : PyVal) (hv : jsonSafe v = true) :
    isException v = false := by
  cases v <;> simp_all [jsonSafe, isException]

/-- C8: serialize-then-hydrate is the identity on results holding JSON-safe
values: `hydrate(Ok(v).serialize()) == Ok(v)` and
`hydrate(Err(v).serialize()) == Err(v)`. -/
theorem c8_serialize_hydrate_roundtrip (v : PyVal) (hv : jsonSafe v = true) :
    Result.hydrate (Ok.serialize v) = Option.some (.ok v) ∧
    Result.hydrate (Err.serialize v) = Option.some (.err v) := by
  have hex := jsonSafe_not_exception v hv
  constructor
  · simp [Ok.serialize, Result.hydrate, is_serialized_result, PyDict.containsKey,
      PyDict.get, pyEq]
  · simp [Err.serialize, hex, Result.hydrate, is_serialized_result, PyDict.containsKey,
      PyDict.get, pyEq]

/-- Witness for `c8_serialize_hydrate_roundtrip` at `v = 5`. -/
theorem c8_serialize_hydrate_roundtrip_witness :
    Result.hydrate (Ok.serialize (.int 5)) = Option.some (.ok (.int 5)) ∧
    Result.hydrate (Err.serialize (.int 5)) = Option.some (.err (.int 5)) :=
  c8_serialize_hydrate_roundtrip (.int 5) rfl

/-! ## Claim C9 -/

/-- C9 counterexample: a supplied message is not always used verbatim —
`Err.unwrap` evaluates `message or default` with Python truthiness, so a
supplied empty message is discarded and the default (which embeds the repr
of the held value) is used instead. -/
theorem c9_empty_message_not_verbatim :
    Err.unwrap (.int 7) (Option.some "")
      = .error (Panic.mkExc "unwrap called on Err: 7" .none) ∧
    messageAttr (Panic.mkExc "unwrap called on Err: 7" .none) ≠ "" :=
  ⟨rfl, by decide⟩

/-- C9 (amended): `unwrap` returns the held value on `Ok`; on `Err` it
raises a `Panic` whose message is the default
`"unwrap called on Err: <repr of the value>"` when no message (or a falsy
empty one) is supplied, and the supplied message verbatim when a non-empty
one is; `unwrap_err` is symmetric. -/
theorem c9_unwrap_contract (v e : PyVal) (m : String) (hm : m ≠ "") :
    Ok.unwrap v Option.none = .ok v ∧
    Ok.unwrap v (Option.some m) = .ok v ∧
    Err.unwrap e Option.none
      = .error (Panic.mkExc ("unwrap called on Err: " ++ pyRepr e) .none) ∧
    Err.unwrap e (Option.some m) = .error (Panic.mkExc m .none) ∧
    Err.unwrap_err e Option.none = .ok e ∧
    Err.unwrap_err e (Option.some m) = .ok e ∧
    Ok.unwrap_err v Option.none
      = .error (Panic.mkExc ("unwrap_err called on Ok: " ++ pyRepr v) .none) ∧
    Ok.unwrap_err v (Option.some m) = .error (Panic.mkExc m .none) := by
  refine ⟨rfl, rfl, rfl, ?_, rfl, rfl, rfl, ?_⟩
  · simp [Err.unwrap, pyOrDefault, hm, panicRaise]
  · simp [Ok.unwrap_err, pyOrDefault, hm, panicRaise]

/-- Witness for `c9_unwrap_contract` with the non-empty message "custom". -/
theorem c9_unwrap_contract_witness :
    Err.unwrap (.int 7) (Option.some "custom")
      = .error (Panic.mkExc "custom" .none) :=
  (c9_unwrap_contract (.int 0) (.int 7) "custom" (by decide)).2.2.2.1

/-! ## Claim C10 -/

/-- Entering the retry loop with a constant `Err` keeps that `Err`. -/
lemma safeLoop_final_const_err (thunk : SafeThunk) (c : PyVal)
    (hall : ∀ i, safeExecute thunk i = .ok (.err c)) (m : Nat) :
    ∀ a count sleeps, (safeAsyncLoop thunk Option.none m a (.err c) count sleeps).1
      = .ok (.err c) := by
  induction m with
  | zero => intro a count sleeps; simp [safeAsyncLoop]
  | succ m ih => intro a count sleeps; simp [safeAsyncLoop, ResultV.is_ok, hall count, ih]

/-- C10: an operation that itself raises a `Panic` is caught by `safe` (and
`safe_async`) like any other fault: the run returns an ordinary
`Err(UnhandledException(panic))` in the bare-callable form, or
`Err(catch(panic))` in the `{try_, catch}` form, and the `Panic` never
escapes the executor. -/
theorem c10_safe_catches_panic (p : PyVal) (hp : is_panic p = true)
    (cfg : Option SafeConfig) (acfg : Option SafeConfigAsync)
    (op : Nat → Except PyVal PyVal) (hop : ∀ i, op i = .error p)
    (catchFn : Cb) (ev : PyVal) (hc : catchFn p = .ok ev) :
    (safe (.callableThunk op) cfg).1 = .ok (.err (UnhandledException.mkExc p)) ∧
    (safe (.tryCatch op catchFn) cfg).1 = .ok (.err ev) ∧
    (safe_async (.callableThunk op) acfg).1
      = .ok (.err (UnhandledException.mkExc p)) ∧
    (safe_async (.tryCatch op catchFn) acfg).1 = .ok (.err ev) := by
  have h1 : ∀ i, safeExecute (.callableThunk op) i
      = .ok (.err (UnhandledException.mkExc p)) := by
    intro i; simp [safeExecute, hop i]
  have h2 : ∀ i, safeExecute (.tryCatch op catchFn) i = .ok (.err ev) := by
    intro i; simp [safeExecute, hop i, hc]
  refine ⟨?_, ?_, ?_, ?_⟩
  · simp [safe, h1 0, safeLoop_const_err _ _ h1]
  · simp [safe, h2 0, safeLoop_const_err _ _ h2]
  · cases acfg
    · simp [safe_async, h1 0, safeLoop_final_const_err _ _ h1]
    · simp [safe_async, h1 0,
        (safeAsyncLoop_const_err _ _ _ h1 _ 0 1 [])]
  · cases acfg
    · simp [safe_async, h2 0, safeLoop_final_const_err _ _ h2]
    · simp [safe_async, h2 0,
        (safeAsyncLoop_const_err _ _ _ h2 _ 0 1 [])]

/-- Witness for `c10_safe_catches_panic`: a thunk that always raises
`Panic("boom")` still yields an `Err`, not an escaping `Panic`. -/
theorem c10_safe_catches_panic_witness :
    (safe (.callableThunk (fun _ => panicRaise "boom" .none)) Option.none).1
      = .ok (.err (UnhandledException.mkExc (Panic.mkExc "boom" .none))) :=
  (c10_safe_catches_panic (Panic.mkExc "boom" .none) rfl Option.none Option.none
    (fun _ => panicRaise "boom" .none) (fun _ => rfl)
    (fun _ => .ok (.str "caught")) (.str "caught") rfl).1

end OkResult
